import Mathlib

/- Verification of the tinymio readiness-notification core.

   Shallow embedding of the crate (src/lib.rs, src/linux.rs, src/macos.rs).
   Syscalls and the shared atomic flag are made explicit:
   - the value of the shared `is_poll_dead` flag at the moment the code
     loads it is passed in as a `Bool` argument;
   - each fallible syscall's outcome is an `Except IOError` oracle argument;
   - the list of kernel calls a function issues is returned as a trace, so
     "performs no syscall" is the trace being empty. -/

namespace Tinymio

/-- lib.rs line 21: `pub type Token = usize` (64-bit). -/
abbrev Token := Nat

/-- Rust `std::io::ErrorKind`, restricted to the kinds relevant here.
    `interrupted` models `io::ErrorKind::Interrupted`; `other n` stands for
    any of the remaining OS error kinds. -/
inductive ErrorKind where
  | interrupted
  | wouldBlock
  | timedOut
  | other (code : Nat)
  deriving DecidableEq

/-- Rust `std::io::Error` as the crate observes it: an error kind plus the
    message string passed to `io::Error::new`. -/
structure IOError where
  kind : ErrorKind
  msg : String
  deriving DecidableEq

/-- lib.rs line 65: `const WRITABLE: u8 = 0b0000_0001` (= 1). -/
def WRITABLE : Nat := 1

/-- lib.rs line 66: `const READABLE: u8 = 0b0000_0010` (= 2). -/
def READABLE : Nat := 2

/-- lib.rs line 68: `pub struct Interests(u8)`. -/
structure Interests where
  bits : Nat
  deriving DecidableEq

/-- lib.rs line 70: `pub const READABLE: Interests = Interests(READABLE)`. -/
def Interests.READABLE : Interests := { bits := Tinymio.READABLE }

/-- lib.rs line 71: `pub const WRITABLE: Interests = Interests(WRITABLE)`. -/
def Interests.WRITABLE : Interests := { bits := Tinymio.WRITABLE }

/-- lib.rs lines 73-75: `self.0 & READABLE != 0`. -/
def Interests.is_readable (i : Interests) : Bool :=
  i.bits &&& Tinymio.READABLE != 0

/-- lib.rs lines 77-79: `self.0 & WRITABLE != 0`. -/
def Interests.is_writable (i : Interests) : Bool :=
  i.bits &&& Tinymio.WRITABLE != 0

/-- Outcome of a fallible Rust call: `Ok(())`, `Err(e)`, or a panic
    (the `unimplemented!()` macro panics with message "not implemented"). -/
inductive RegResult where
  | ok
  | err (e : IOError)
  | panicked (msg : String)
  deriving DecidableEq

namespace linux

/-- linux.rs line 156: `pub const EPOLL_CTL_ADD: i32 = 1`. -/
def EPOLL_CTL_ADD : Int := 1

/-- linux.rs line 157: `pub const EPOLL_CTL_DEL: i32 = 2`. -/
def EPOLL_CTL_DEL : Int := 2

/-- linux.rs line 158: `pub const EPOLLIN: i32 = 0x1` (non-negative, so its
    u32 reinterpretation is the same number; modelled as Nat). -/
def EPOLLIN : Nat := 0x1

/-- linux.rs line 159: `pub const EPOLLONESHOT: i32 = 0x40000000`. -/
def EPOLLONESHOT : Nat := 0x40000000

/-- linux.rs lines 163-166: `struct Event { events: u32, epoll_data: usize }`. -/
structure Event where
  events : Nat
  epoll_data : Nat
  deriving DecidableEq

/-- linux.rs lines 169-174: `Event::new(events, id)`; the `events as u32`
    cast is `% 2^32` (identity for the non-negative masks used here). -/
def Event.new (events : Nat) (id : Nat) : Event :=
  { events := events % 2 ^ 32, epoll_data := id }

/-- linux.rs lines 176-178: `data()` returns `epoll_data`. -/
def Event.data (e : Event) : Nat :=
  e.epoll_data

/-- linux.rs line 110: `pub fn id(&self) -> Token { self.data() }`. -/
def Event.id (e : Event) : Token :=
  e.data

/-- One kernel call issued by the Linux backend, with its arguments. -/
inductive Syscall where
  | epoll_ctl (epfd : Int) (op : Int) (fd : Int) (event : Event)
  | eventfd (initva : Nat) (flags : Int)
  deriving DecidableEq

/-- linux.rs lines 22-25 and 53-56: the error built by both `register` and
    `close_loop` once the shared flag is set:
    `io::Error::new(io::ErrorKind::Interrupted, "Poll instance closed")`. -/
def registerClosedError : IOError :=
  { kind := ErrorKind.interrupted, msg := "Poll instance closed" }

/-- linux.rs lines 14-47: `Registrator::register`. `is_poll_dead` is the
    loaded value of the shared flag; `epoll_ctl_result` is the outcome the
    kernel would give the `epoll_ctl` call. Returns the call result and the
    trace of syscalls performed. -/
def Registrator.register (is_poll_dead : Bool) (epoll_fd : Int) (fd : Int)
    (epoll_ctl_result : Except IOError Unit) (token : Nat) (interests : Interests) :
    RegResult × List Syscall :=
  if is_poll_dead then
    (RegResult.err registerClosedError, [])
  else if interests.is_readable then
    let event := Event.new (EPOLLIN ||| EPOLLONESHOT) token
    let calls := [Syscall.epoll_ctl epoll_fd EPOLL_CTL_ADD fd event]
    match epoll_ctl_result with
    | Except.error e => (RegResult.err e, calls)
    | Except.ok _ =>
      if interests.is_writable then (RegResult.panicked "not implemented", calls)
      else (RegResult.ok, calls)
  else if interests.is_writable then
    (RegResult.panicked "not implemented", [])
  else
    (RegResult.ok, [])

/-- linux.rs lines 51-64: `Registrator::close_loop`. The middle component of
    the result is the value of the shared flag after the call
    (`compare_and_swap(false, true, SeqCst)` runs first, so the flag is true
    afterwards in every branch). The wakeup is an `eventfd` plus an
    `epoll_ctl` adding `Event::new(EPOLLIN, 0)` for the new eventfd. -/
def Registrator.close_loop (is_poll_dead : Bool) (epoll_fd : Int)
    (eventfd_result : Except IOError Int) (epoll_ctl_result : Except IOError Unit) :
    RegResult × Bool × List Syscall :=
  if is_poll_dead then
    (RegResult.err registerClosedError, true, [])
  else
    match eventfd_result with
    | Except.error e => (RegResult.err e, true, [Syscall.eventfd 1 0])
    | Except.ok wake_fd =>
      let event := Event.new EPOLLIN 0
      let calls := [Syscall.eventfd 1 0, Syscall.epoll_ctl epoll_fd EPOLL_CTL_ADD wake_fd event]
      match epoll_ctl_result with
      | Except.error e => (RegResult.err e, true, calls)
      | Except.ok _ => (RegResult.ok, true, calls)

/-- linux.rs line 81: `let timeout = timeout_ms.unwrap_or(-1)` — the value
    `Selector::select` hands to `epoll_wait` (-1 is epoll's
    wait-indefinitely sentinel). -/
def Selector.selectTimeout (timeout_ms : Option Int) : Int :=
  timeout_ms.getD (-1)

end linux

namespace macos

/-- macos.rs line 151: `pub const EVFILT_READ: i16 = -1`. -/
def EVFILT_READ : Int := -1

/-- macos.rs line 152: `pub const EVFILT_TIMER: i16 = -7`. -/
def EVFILT_TIMER : Int := -7

/-- macos.rs line 153: `pub const EV_ADD: u16 = 0x1`. -/
def EV_ADD : Nat := 0x1

/-- macos.rs line 154: `pub const EV_ENABLE: u16 = 0x4`. -/
def EV_ENABLE : Nat := 0x4

/-- macos.rs line 155: `pub const EV_ONESHOT: u16 = 0x10`. -/
def EV_ONESHOT : Nat := 0x10

/-- macos.rs line 156: `pub const EV_CLEAR: u16 = 0x20`. -/
def EV_CLEAR : Nat := 0x20

/-- macos.rs lines 227-238: `struct Kevent { ident: u64, filter: i16,
    flags: u16, fflags: u32, data: i64, udata: u64 }`. Unsigned fields are
    Nat, signed fields Int. -/
structure Kevent where
  ident : Nat
  filter : Int
  flags : Nat
  fflags : Nat
  data : Int
  udata : Nat
  deriving DecidableEq

/-- macos.rs line 183: `pub type Event = Kevent`. -/
abbrev Event := Kevent

/-- macos.rs lines 185-194: `Event::new_read_event(fd, id)`; the
    `fd as u64` cast of the i32 descriptor is Euclidean `% 2^64`. -/
def Event.new_read_event (fd : Int) (id : Nat) : Event :=
  { ident := (fd % (2 : Int) ^ 64).toNat
    filter := EVFILT_READ
    flags := EV_ADD ||| EV_ENABLE ||| EV_ONESHOT
    fflags := 0
    data := 0
    udata := id }

/-- macos.rs lines 196-206: `Event::new_wakeup_event()` — an EVFILT_TIMER
    kevent with data 0 (expire at once) and udata 0. -/
def Event.new_wakeup_event : Event :=
  { ident := 0
    filter := EVFILT_TIMER
    flags := EV_ADD ||| EV_ENABLE ||| EV_CLEAR
    fflags := 0
    data := 0
    udata := 0 }

/-- macos.rs lines 103-105: `self.udata as usize` (u64 to 64-bit usize,
    modelled as `% 2^64`). -/
def Event.id (e : Event) : Token :=
  e.udata % 2 ^ 64

/-- One `kevent` kernel call issued by the macOS backend: queue handle,
    submitted changelist, and the requested eventlist capacity. -/
inductive MacSyscall where
  | kevent (kq : Int) (changelist : List Kevent) (n_events : Int)
  deriving DecidableEq

/-- macos.rs lines 23-26 and 48-51: the "closed" error on this backend:
    `io::Error::new(io::ErrorKind::Interrupted, "Poll instance closed.")`. -/
def registerClosedError : IOError :=
  { kind := ErrorKind.interrupted, msg := "Poll instance closed." }

/-- macos.rs lines 16-41: `Registrator::register`. The `token as u64` cast
    at the call site of `new_read_event` is `% 2^64`. -/
def Registrator.register (is_poll_dead : Bool) (kq : Int) (fd : Int)
    (kevent_result : Except IOError Nat) (token : Nat) (interests : Interests) :
    RegResult × List MacSyscall :=
  if is_poll_dead then
    (RegResult.err registerClosedError, [])
  else if interests.is_readable then
    let event := Event.new_read_event fd (token % 2 ^ 64)
    let calls := [MacSyscall.kevent kq [event] 0]
    match kevent_result with
    | Except.error e => (RegResult.err e, calls)
    | Except.ok _ =>
      if interests.is_writable then (RegResult.panicked "not implemented", calls)
      else (RegResult.ok, calls)
  else if interests.is_writable then
    (RegResult.panicked "not implemented", [])
  else
    (RegResult.ok, [])

/-- macos.rs lines 43-59: `Registrator::close_loop`; same shape as the Linux
    backend but the wakeup is a single `kevent` submitting the timer event. -/
def Registrator.close_loop (is_poll_dead : Bool) (kq : Int)
    (kevent_result : Except IOError Nat) : RegResult × Bool × List MacSyscall :=
  if is_poll_dead then
    (RegResult.err registerClosedError, true, [])
  else
    let calls := [MacSyscall.kevent kq [Event.new_wakeup_event] 0]
    match kevent_result with
    | Except.error e => (RegResult.err e, true, calls)
    | Except.ok _ => (RegResult.ok, true, calls)

end macos

/-- lib.rs line 54: the error `Poll::poll` returns once the shared flag is
    observed true: `io::Error::new(io::ErrorKind::Interrupted, "Poll closed.")`. -/
def pollClosedError : IOError :=
  { kind := ErrorKind.interrupted, msg := "Poll closed." }

/-- lib.rs lines 44-51: the retry loop of `Poll::poll`. The argument is the
    oracle of outcomes of the successive `Selector::select` calls (a success
    carries the event buffer contents `select` produced). `none` means the
    oracle was exhausted, i.e. the loop would still be spinning. -/
def Poll.selectLoop {α : Type} :
    List (Except IOError (List α)) → Option (Except IOError (List α))
  | [] => none
  | Except.ok events :: _ => some (Except.ok events)
  | Except.error e :: rest =>
    if e.kind = ErrorKind.interrupted then Poll.selectLoop rest
    else some (Except.error e)

/-- lib.rs lines 42-57: `Poll::poll` after the timeout normalization: run the
    select loop, then load the shared flag (`is_poll_dead` is the loaded
    value); if true return the closed error, otherwise `Ok(events.len())`. -/
def Poll.poll {α : Type} (select_results : List (Except IOError (List α)))
    (is_poll_dead : Bool) : Option (Except IOError Nat) :=
  match Poll.selectLoop select_results with
  | none => none
  | some (Except.error e) => some (Except.error e)
  | some (Except.ok events) =>
    if is_poll_dead then some (Except.error pollClosedError)
    else some (Except.ok events.length)

/-- lib.rs line 43: `timeout_ms.map(|n| if n < 0 { 0 } else { n })`. -/
def Poll.normalizeTimeout (timeout_ms : Option Int) : Option Int :=
  timeout_ms.map (fun n => if n < 0 then 0 else n)

/-- Composition of `Poll::poll`'s normalization with `Selector::select`'s
    `unwrap_or(-1)`: the integer the Linux backend passes to `epoll_wait`
    for a given `timeout_ms` argument of `poll`. -/
def Poll.linuxBackendTimeout (timeout_ms : Option Int) : Int :=
  linux.Selector.selectTimeout (Poll.normalizeTimeout timeout_ms)

/-- C1: once the shared shutdown flag is true, `register` on any Registrator
    clone (either backend) fails with the "closed" error and issues no kernel
    registration syscall (the syscall trace is empty), whatever the source
    descriptor, token, interests or would-be syscall outcome. -/
theorem C1_register_after_close_fails_without_syscall
    (epoll_fd fd kq kfd : Int) (ctl : Except IOError Unit)
    (kres : Except IOError Nat) (token : Nat) (i : Interests) :
    linux.Registrator.register true epoll_fd fd ctl token i
      = (RegResult.err linux.registerClosedError, []) ∧
    macos.Registrator.register true kq kfd kres token i
      = (RegResult.err macos.registerClosedError, []) := by
  exact ⟨rfl, rfl⟩

/-- C2: if the select loop of `Poll::poll` ends in a successful wait and the
    shared shutdown flag is observed true, `poll` returns the terminal
    "closed" error — never `Ok` — no matter which or how many events the wait
    delivered, so none of them is surfaced to the caller. -/
theorem C2_poll_returns_closed_when_flag_set {α : Type}
    (results : List (Except IOError (List α))) (events : List α)
    (h : Poll.selectLoop results = some (Except.ok events)) :
    Poll.poll results true = some (Except.error pollClosedError) := by
  unfold Poll.poll
  rw [h]
  rfl

/-- C2 witness: a concrete successful wait that delivered exactly the
    artificial wakeup event, with the flag set. -/
theorem C2_poll_returns_closed_witness :
    Poll.poll [Except.ok [Tinymio.linux.Event.new Tinymio.linux.EPOLLIN 0]] true
      = some (Except.error pollClosedError) :=
  C2_poll_returns_closed_when_flag_set
    [Except.ok [Tinymio.linux.Event.new Tinymio.linux.EPOLLIN 0]]
    [Tinymio.linux.Event.new Tinymio.linux.EPOLLIN 0] rfl

/-- C4: `close_loop` is single-use. A call that observes the flag already
    true fails with the closed error and issues no syscall at all (in
    particular it does not re-inject a wakeup event), and the flag stays
    true; a call that observes the flag false flips it to true (the
    compare-and-swap runs before anything can fail). Both backends. -/
theorem C4_close_loop_single_use (epoll_fd kq : Int)
    (efd : Except IOError Int) (ctl : Except IOError Unit)
    (kres : Except IOError Nat) :
    linux.Registrator.close_loop true epoll_fd efd ctl
      = (RegResult.err linux.registerClosedError, true, []) ∧
    macos.Registrator.close_loop true kq kres
      = (RegResult.err macos.registerClosedError, true, []) ∧
    (linux.Registrator.close_loop false epoll_fd efd ctl).2.1 = true ∧
    (macos.Registrator.close_loop false kq kres).2.1 = true := by
  refine ⟨rfl, rfl, ?_, ?_⟩
  · cases efd with
    | error e => rfl
    | ok wake_fd =>
      cases ctl with
      | error e => rfl
      | ok u => rfl
  · cases kres with
    | error e => rfl
    | ok n => rfl

/-- C5: the retry loop of `Poll::poll` silently retries exactly when the
    select error has the "interrupted by signal" kind; any other error is
    returned immediately and unchanged (same kind, same message). -/
theorem C5_poll_retries_only_interrupted {α : Type} (e : IOError)
    (rest : List (Except IOError (List α))) (flag : Bool) :
    Poll.poll (Except.error e :: rest) flag
      = if e.kind = ErrorKind.interrupted then Poll.poll rest flag
        else some (Except.error e) := by
  by_cases h : e.kind = ErrorKind.interrupted
  · simp [Poll.poll, Poll.selectLoop, h]
  · simp [Poll.poll, Poll.selectLoop, h]

/-- C9: timeout normalization. `None` reaches the Linux backend wait as the
    wait-indefinitely sentinel -1 (never as a caller-supplied value); a
    supplied value `n` reaches it clamped to `max n 0`, hence never
    negative — in particular every negative supplied timeout arrives as 0. -/
theorem C9_timeout_normalization (n : Int) :
    Poll.linuxBackendTimeout none = -1 ∧
    0 ≤ Poll.linuxBackendTimeout (some n) ∧
    Poll.linuxBackendTimeout (some n) = max n 0 := by
  refine ⟨rfl, ?_, ?_⟩ <;>
  · by_cases h : n < 0 <;>
      simp [Poll.linuxBackendTimeout, Poll.normalizeTimeout,
        linux.Selector.selectTimeout, h] <;>
      omega

/-- C10: the artificial wakeup event of the first successful `close_loop`
    carries token 0 in the same token field used for caller registrations:
    on Linux it is `Event::new(EPOLLIN, 0)` (so `id()` is 0, equal to the
    `id()` of a READABLE registration descriptor built with token 0), and on
    macOS it is `new_wakeup_event()` with `udata` 0 (so `id()` is 0, equal
    to the `id()` of any read registration built with token 0). -/
theorem C10_wakeup_event_token_zero (epoll_fd wake_fd kq : Int) :
    (linux.Registrator.close_loop false epoll_fd (Except.ok wake_fd) (Except.ok ())).2.2
      = [linux.Syscall.eventfd 1 0,
         linux.Syscall.epoll_ctl epoll_fd linux.EPOLL_CTL_ADD wake_fd
           (linux.Event.new linux.EPOLLIN 0)] ∧
    (linux.Event.new linux.EPOLLIN 0).id = 0 ∧
    (linux.Event.new (linux.EPOLLIN ||| linux.EPOLLONESHOT) 0).id
      = (linux.Event.new linux.EPOLLIN 0).id ∧
    (macos.Registrator.close_loop false kq (Except.ok 1)).2.2
      = [macos.MacSyscall.kevent kq [macos.Event.new_wakeup_event] 0] ∧
    macos.Event.new_wakeup_event.id = 0 ∧
    (∀ fd : Int, (macos.Event.new_read_event fd (0 % 2 ^ 64)).id
      = macos.Event.new_wakeup_event.id) := by
  refine ⟨rfl, rfl, rfl, rfl, rfl, fun fd => rfl⟩

/-- C3 counterexample: the "closed" condition is NOT distinguishable by error
    kind from the recoverable "interrupted by signal" error — every closed
    error (`poll`'s, and `register`/`close_loop`'s on both backends) carries
    `ErrorKind::Interrupted`, the very kind `poll` retries on. Concretely,
    the closed error itself, if it ever came back as a select error, would be
    silently retried by the loop. -/
theorem C3_closed_kind_counterexample :
    pollClosedError.kind = ErrorKind.interrupted ∧
    linux.registerClosedError.kind = ErrorKind.interrupted ∧
    macos.registerClosedError.kind = ErrorKind.interrupted ∧
    Poll.poll [Except.error pollClosedError,
               Except.ok ([] : List Tinymio.linux.Event)] false
      = some (Except.ok 0) := by
  exact ⟨rfl, rfl, rfl, rfl⟩

/-- C3 amended: the "closed" terminal condition is distinguished by its
    provenance and message string, not by error kind — all closed errors use
    the Interrupted kind, the same kind as the signal-interruption error the
    loop retries; an error of that kind arriving from `select` is retried,
    never propagated. -/
theorem C3_closed_distinguished_by_message_only :
    pollClosedError = { kind := ErrorKind.interrupted, msg := "Poll closed." } ∧
    linux.registerClosedError
      = { kind := ErrorKind.interrupted, msg := "Poll instance closed" } ∧
    macos.registerClosedError
      = { kind := ErrorKind.interrupted, msg := "Poll instance closed." } ∧
    (∀ (α : Type) (e : IOError) (rest : List (Except IOError (List α))) (flag : Bool),
      e.kind = pollClosedError.kind →
      Poll.poll (Except.error e :: rest) flag = Poll.poll rest flag) := by
  refine ⟨rfl, rfl, rfl, fun α e rest flag h => ?_⟩
  simp [Poll.poll, Poll.selectLoop, h, pollClosedError]

/-- C3 amended witness: a concrete select error of the closed error's kind is
    silently retried and the following successful wait is surfaced. -/
theorem C3_closed_distinguished_by_message_only_witness :
    Poll.poll [Except.error { kind := ErrorKind.interrupted, msg := "EINTR" },
               Except.ok ([] : List Tinymio.linux.Event)] false
      = Poll.poll [Except.ok ([] : List Tinymio.linux.Event)] false :=
  C3_closed_distinguished_by_message_only.2.2.2 Tinymio.linux.Event
    { kind := ErrorKind.interrupted, msg := "EINTR" }
    [Except.ok ([] : List Tinymio.linux.Event)] false rfl

/-- C6 counterexample: a `register` call with WRITABLE interest made after
    shutdown does not raise the "unimplemented interest" panic — it fails
    with the "closed" error at the flag check, before the interest is ever
    examined. -/
theorem C6_writable_after_close_counterexample :
    (linux.Registrator.register true 3 4 (Except.ok ()) 7 Interests.WRITABLE).1
      = RegResult.err linux.registerClosedError ∧
    (linux.Registrator.register true 3 4 (Except.ok ()) 7 Interests.WRITABLE).1
      ≠ RegResult.panicked "not implemented" := by
  exact ⟨rfl, by decide⟩

/-- C6 amended: a `register` call with WRITABLE interest never reports
    success on either backend; and whenever the call reaches the interest
    checks (shutdown flag unset) with the readable half (if any) registering
    without error, the "unimplemented" panic is raised synchronously. If the
    flag is already set the call instead fails with the "closed" error. -/
theorem C6_writable_never_ok (flag : Bool) (epoll_fd fd kq kfd : Int)
    (ctl : Except IOError Unit) (kres : Except IOError Nat) (kn : Nat)
    (token : Nat) (i : Interests) (hw : i.is_writable = true) :
    (linux.Registrator.register flag epoll_fd fd ctl token i).1 ≠ RegResult.ok ∧
    (macos.Registrator.register flag kq kfd kres token i).1 ≠ RegResult.ok ∧
    (linux.Registrator.register false epoll_fd fd (Except.ok ()) token i).1
      = RegResult.panicked "not implemented" ∧
    (macos.Registrator.register false kq kfd (Except.ok kn) token i).1
      = RegResult.panicked "not implemented" := by
  refine ⟨?_, ?_, ?_, ?_⟩
  · cases flag
    · by_cases hr : i.is_readable = true
      · cases ctl with
        | error e => simp [linux.Registrator.register, hr, hw]
        | ok u => simp [linux.Registrator.register, hr, hw]
      · simp [linux.Registrator.register, hr, hw]
    · simp [linux.Registrator.register]
  · cases flag
    · by_cases hr : i.is_readable = true
      · cases kres with
        | error e => simp [macos.Registrator.register, hr, hw]
        | ok u => simp [macos.Registrator.register, hr, hw]
      · simp [macos.Registrator.register, hr, hw]
    · simp [macos.Registrator.register]
  · by_cases hr : i.is_readable = true <;>
      simp [linux.Registrator.register, hr, hw]
  · by_cases hr : i.is_readable = true <;>
      simp [macos.Registrator.register, hr, hw]

/-- C6 amended witness: concrete WRITABLE-only registration before shutdown
    panics with "not implemented" and reports no success on either backend. -/
theorem C6_writable_never_ok_witness :
    Interests.WRITABLE.is_writable = true ∧
    ((linux.Registrator.register false 3 4 (Except.ok ()) 7 Interests.WRITABLE).1
        ≠ RegResult.ok ∧
      (macos.Registrator.register false 5 6 (Except.ok 1) 7 Interests.WRITABLE).1
        ≠ RegResult.ok ∧
      (linux.Registrator.register false 3 4 (Except.ok ()) 7 Interests.WRITABLE).1
        = RegResult.panicked "not implemented" ∧
      (macos.Registrator.register false 5 6 (Except.ok 1) 7 Interests.WRITABLE).1
        = RegResult.panicked "not implemented") :=
  ⟨by decide,
    C6_writable_never_ok false 3 4 5 6 (Except.ok ()) (Except.ok 1) 1 7
      Interests.WRITABLE (by decide)⟩

/-- C7: every backend event descriptor that `register` submits on behalf of a
    READABLE interest is a one-shot registration: any `epoll_ctl` in the
    Linux trace carries a descriptor with the `EPOLLONESHOT` bit set, and any
    kevent changelist entry in the macOS trace carries the `EV_ONESHOT` flag
    bit — for every flag value, descriptor, token, interest set and syscall
    outcome. -/
theorem C7_registrations_are_one_shot (flag : Bool) (epoll_fd fd kq kfd : Int)
    (ctl : Except IOError Unit) (kres : Except IOError Nat)
    (token : Nat) (i : Interests) :
    (∀ epfd op sfd ev,
      linux.Syscall.epoll_ctl epfd op sfd ev
          ∈ (linux.Registrator.register flag epoll_fd fd ctl token i).2 →
      ev.events &&& linux.EPOLLONESHOT ≠ 0) ∧
    (∀ q cl n,
      macos.MacSyscall.kevent q cl n
          ∈ (macos.Registrator.register flag kq kfd kres token i).2 →
      ∀ ev ∈ cl, ev.flags &&& macos.EV_ONESHOT ≠ 0) := by
  constructor
  · intro epfd op sfd ev hmem
    cases flag
    · by_cases hr : i.is_readable = true
      · cases ctl with
        | error e =>
          simp [linux.Registrator.register, hr] at hmem
          simp [hmem.2.2.2, linux.Event.new, linux.EPOLLIN, linux.EPOLLONESHOT]
        | ok u =>
          by_cases hw : i.is_writable = true <;>
          · simp [linux.Registrator.register, hr, hw] at hmem
            simp [hmem.2.2.2, linux.Event.new, linux.EPOLLIN, linux.EPOLLONESHOT]
      · by_cases hw : i.is_writable = true <;>
          simp [linux.Registrator.register, hr, hw] at hmem
    · simp [linux.Registrator.register] at hmem
  · intro q cl n hmem ev hev
    cases flag
    · by_cases hr : i.is_readable = true
      · have hcl : cl = [macos.Event.new_read_event kfd (token % 2 ^ 64)] := by
          cases kres with
          | error e =>
            simp [macos.Registrator.register, hr] at hmem
            exact hmem.2.1
          | ok u =>
            by_cases hw : i.is_writable = true <;>
            · simp [macos.Registrator.register, hr, hw] at hmem
              exact hmem.2.1
        rw [hcl] at hev
        simp at hev
        simp [hev, macos.Event.new_read_event, macos.EV_ADD, macos.EV_ENABLE,
          macos.EV_ONESHOT]
      · by_cases hw : i.is_writable = true <;>
          simp [macos.Registrator.register, hr, hw] at hmem
    · simp [macos.Registrator.register] at hmem

/-- C7 witness: the concrete descriptors a READABLE registration submits
    before shutdown carry the one-shot bit on both backends. -/
theorem C7_registrations_are_one_shot_witness :
    (linux.Event.new (linux.EPOLLIN ||| linux.EPOLLONESHOT) 7).events
        &&& linux.EPOLLONESHOT ≠ 0 ∧
    (macos.Event.new_read_event 6 (7 % 2 ^ 64)).flags &&& macos.EV_ONESHOT ≠ 0 :=
  ⟨(C7_registrations_are_one_shot false 3 4 5 6 (Except.ok ()) (Except.ok 1) 7
        Interests.READABLE).1
      3 linux.EPOLL_CTL_ADD 4 (linux.Event.new (linux.EPOLLIN ||| linux.EPOLLONESHOT) 7)
      (by decide),
    (C7_registrations_are_one_shot false 3 4 5 6 (Except.ok ()) (Except.ok 1) 7
        Interests.READABLE).2
      5 [macos.Event.new_read_event 6 (7 % 2 ^ 64)] 0 (by decide)
      (macos.Event.new_read_event 6 (7 % 2 ^ 64)) (by decide)⟩

/-- C8: token round-trip identity. The Linux descriptor stores the token
    unmodified in `epoll_data` and `Event::id` returns exactly it; the macOS
    descriptor stores the token's u64 cast in `udata` and `Event::id` returns
    exactly the token for every token in usize range (tokens are 64-bit, so
    the cast loses nothing). -/
theorem C8_token_roundtrip (token : Nat) (fd : Int) (flags : Nat)
    (h : token < 2 ^ 64) :
    (linux.Event.new flags token).epoll_data = token ∧
    (linux.Event.new flags token).id = token ∧
    (macos.Event.new_read_event fd (token % 2 ^ 64)).udata = token % 2 ^ 64 ∧
    (macos.Event.new_read_event fd (token % 2 ^ 64)).id = token := by
  refine ⟨rfl, rfl, rfl, ?_⟩
  have h2 : token % 2 ^ 64 = token := Nat.mod_eq_of_lt h
  have h3 : (macos.Event.new_read_event fd (token % 2 ^ 64)).id
      = token % 2 ^ 64 % 2 ^ 64 := rfl
  rw [h3, h2, h2]

/-- C8 witness: round trip at token 7. -/
theorem C8_token_roundtrip_witness :
    (7 : Nat) < 2 ^ 64 ∧
    ((linux.Event.new 1073741825 7).epoll_data = 7 ∧
      (linux.Event.new 1073741825 7).id = 7 ∧
      (macos.Event.new_read_event 6 (7 % 2 ^ 64)).udata = 7 % 2 ^ 64 ∧
      (macos.Event.new_read_event 6 (7 % 2 ^ 64)).id = 7) :=
  ⟨by decide, C8_token_roundtrip 7 6 1073741825 (by decide)⟩

end Tinymio
